import Mathlib

/-!
Shallow embedding of the platform-architecture-lab repository:

* `components/security/auth_gateway/auth.py` — identity resolution
  (`get_current_user`) and role checking (`RequireRole`);
* `components/intelligence/reflection_agent/main.py` — the `reflect`
  endpoint's deterministic fallback mode;
* `implementations/receipt_processor/compliance.py` — the compliance
  evaluator (`check_business_rules`, `generate_approval_ui`);
* `implementations/receipt_processor/main.py` — the orchestrator
  (`call_reflection_engine`, `process_receipt`).

JSON objects handled as Python dicts are embedded as association lists of
string keys and `JVal` values.  Python floats are embedded as rationals:
every numeric literal appearing in the sources (0.5, 0.85, 75.00, amounts
such as 74.99) is handled only through order comparisons whose outcomes
agree between IEEE doubles and the exact rationals, so the embedding is
faithful for the properties below.  Network effects are embedded by
passing the outcome of the single outbound call as an explicit argument.
-/

namespace PlatformLab

/-- A JSON-ish value as stored in the dict payloads the services pass
around: strings, numbers (Python floats, embedded as `ℚ`) and booleans. -/
inductive JVal where
  | str  : String → JVal
  | num  : ℚ → JVal
  | bool : Bool → JVal
deriving DecidableEq, Repr

/-- A payload dict (`Dict[str, Any]` in the source): an association list
from field names to values, in insertion order. -/
abbrev Draft : Type := List (String × JVal)

/-- `d.get(k)` / `k in d`: the value at key `k`, if present. -/
def Draft.lookup (d : Draft) (k : String) : Option JVal :=
  List.lookup k d

/-- `d[k] = v` on a dict that already holds key `k`: replace the value at
`k`, keeping insertion order (Python dict update semantics). -/
def Draft.setField (d : Draft) (k : String) (v : JVal) : Draft :=
  d.map (fun p => if p.1 = k then (p.1, v) else p)

/-- Substring test, embedding Python's `needle in hay` on strings. -/
def strContains (hay needle : String) : Bool :=
  decide (needle.data <:+: hay.data)

/-! ## `components/security/auth_gateway/models.py` -/

/-- `UserContext` from `auth_gateway/models.py`. -/
structure UserContext where
  user_id   : String
  client_id : String
  roles     : List String
  tenant_id : Option String
deriving DecidableEq, Repr

/-! ## `components/security/auth_gateway/auth.py` -/

/-- The identity map `API_IDENTITY_MAP`: keyed by the configured
credential, which is `None` (here `none`) when the corresponding
environment variable is unset. -/
abbrev IdentityMap : Type := List (Option String × UserContext)

/-- `get_current_user` from `auth_gateway/auth.py`: reject a missing or
falsy (empty) presented credential, drop identity-map entries whose key
is `None`, then scan the remaining entries comparing the presented
credential with each configured key (`hmac.compare_digest` is string
equality with constant-time evaluation; timing is not modelled).
`none` embeds the raised `HTTPException` (403, authentication failure). -/
def get_current_user (api_key : Option String) (identMap : IdentityMap) :
    Option UserContext :=
  match api_key with
  | none => none
  | some k =>
    if k = "" then none
    else
      let valid_keys := identMap.filterMap
        (fun e => e.1.map (fun key => (key, e.2)))
      (valid_keys.find? (fun e => e.1 = k)).map (·.2)

/-- `RequireRole.__call__` from `auth_gateway/auth.py`, for an already
resolved user: `true` embeds returning `True`, `false` embeds raising
the 403 `HTTPException` (authorization failure). -/
def RequireRole (required_role : String) (user : UserContext) : Bool :=
  if user.roles.contains "admin" then true
  else if !(user.roles.contains required_role) then false
  else true

/-! ## `implementations/receipt_processor/compliance.py` -/

/-- One UI block produced by `generate_approval_ui`: either a `section`
block carrying its mrkdwn text, or an `actions` block carrying the
(button label, value) pairs. -/
inductive UIBlock where
  | section : String → UIBlock
  | actions : List (String × String) → UIBlock
deriving DecidableEq, Repr

/-- Rendering of a float amount into the alert text (Python f-string
interpolation of the float). -/
def formatAmount (amount : ℚ) : String := toString amount

/-- `generate_approval_ui` from `compliance.py`. -/
def generate_approval_ui (merchant : String) (amount : ℚ)
    (alert_msg : String) : List UIBlock :=
  [ UIBlock.section
      ("🚨 *Compliance Alert*\n*Merchant:* " ++ merchant ++
       "\n*Amount:* $" ++ formatAmount amount ++ "\n*Alert:* " ++ alert_msg),
    UIBlock.actions [("Approve", "approve"), ("Reject", "reject")] ]

/-- The dict returned by `check_business_rules`: a status string and the
optional review artifact (`ui_blocks`, `None` embeds as `none`). -/
structure ComplianceDecision where
  status    : String
  ui_blocks : Option (List UIBlock)
deriving DecidableEq, Repr

/-- `check_business_rules` from `compliance.py`. -/
def check_business_rules (amount : ℚ) (merchant : String) :
    ComplianceDecision :=
  if amount ≥ 75 then
    { status := "REVIEW_REQUIRED",
      ui_blocks := some (generate_approval_ui merchant amount
        "Exceeds auto-approval limit") }
  else
    { status := "APPROVED", ui_blocks := none }

/-! ## `components/intelligence/reflection_agent/main.py` -/

/-- `ReflectionResponse` from `reflection_agent/main.py`: the body the
`/reflect` endpoint returns. -/
structure ReflectionResponse where
  refined_data : Draft
  was_modified : Bool
  notes        : String
deriving DecidableEq, Repr

/-- The `/reflect` handler in deterministic fallback mode (`client` is
`None` because no OpenAI key is configured): copy the payload; if it has
a `"date"` field whose string value contains `"2026"`, overwrite that
field with the fixed date `"2025-12-06"` and flag the modification;
otherwise return the payload unchanged.  `none` embeds the `TypeError`
Python raises when `"2026" in corrected["date"]` is evaluated on a
non-string date value (an uncaught failure of the endpoint). -/
def reflect_fallback (data_payload : Draft) : Option ReflectionResponse :=
  match data_payload.lookup "date" with
  | some (JVal.str d) =>
    if strContains d "2026" then
      some { refined_data := data_payload.setField "date" (JVal.str "2025-12-06"),
             was_modified := true,
             notes := "Mock AI: Fixed future date error." }
    else
      some { refined_data := data_payload,
             was_modified := false,
             notes := "AI Unavailable (Env Var Missing). Checks passed." }
  | some _ => none
  | none =>
    some { refined_data := data_payload,
           was_modified := false,
           notes := "AI Unavailable (Env Var Missing). Checks passed." }

/-! ## `implementations/receipt_processor/main.py` -/

/-- Outcome of the one outbound HTTP call `call_reflection_engine`
makes: either a parsed success body, or any failure (timeout, connection
error, `raise_for_status` on a non-2xx reply, malformed JSON body) —
every failure reaches the same `except Exception` handler, so a single
failure case is faithful. -/
inductive ReflectionOutcome where
  | success : ReflectionResponse → ReflectionOutcome
  | failure : ReflectionOutcome
deriving DecidableEq, Repr

/-- `call_reflection_engine` from `receipt_processor/main.py`, with the
network outcome passed explicitly: on success, return `refined_data`
when `was_modified` is set, else the original draft; on any failure,
log and return the original draft. -/
def call_reflection_engine (draft_data : Draft)
    (outcome : ReflectionOutcome) : Draft :=
  match outcome with
  | ReflectionOutcome.success result =>
    if result.was_modified then result.refined_data else draft_data
  | ReflectionOutcome.failure => draft_data

/-- `draft.get("confidence", 0.5)` followed by `float(...)`: the
confidence used for routing.  `none` embeds the `ValueError`/`TypeError`
`float` raises on a value it cannot convert (non-numeric). -/
def draftConfidence (draft : Draft) : Option ℚ :=
  match draft.lookup "confidence" with
  | none => some (mkRat 1 2)
  | some (JVal.num q) => some q
  | some _ => none

/-- `draft.get("amount", 0.0)` as consumed by `check_business_rules`'s
`amount >= SPENDING_LIMIT` comparison; `none` embeds the `TypeError` a
non-numeric amount raises there. -/
def draftAmount (draft : Draft) : Option ℚ :=
  match draft.lookup "amount" with
  | none => some 0
  | some (JVal.num q) => some q
  | some _ => none

/-- `draft.get("merchant", "Unknown")` as a string. -/
def draftMerchant (draft : Draft) : Option String :=
  match draft.lookup "merchant" with
  | none => some "Unknown"
  | some (JVal.str s) => some s
  | some _ => none

/-- The `meta` object of the `/process` response. -/
structure Meta where
  processed_by : String
  route        : String
  role         : String
deriving DecidableEq, Repr

/-- The `/process` response: the (possibly corrected) draft fields
spread at top level, the compliance outcome, and the metadata. -/
structure ProcessResponse where
  fields            : Draft
  compliance_status : String
  ui_blocks         : Option (List UIBlock)
  meta              : Meta
deriving DecidableEq, Repr

/-- `process_receipt` from `receipt_processor/main.py`, for an already
authenticated and authorized `user` and an already parsed extraction
`draft`, with the outcome of the reflection call (made only on the
low-confidence path) passed explicitly: read the confidence (default
0.5), route through `call_reflection_engine` when it is below 0.85
(setting the route marker), run `check_business_rules` on the resulting
draft's amount and merchant, and assemble the response.  `none` embeds
the `except Exception` handler re-raising as a 500 `ProcessingError`. -/
def process_receipt (user : UserContext) (draft : Draft)
    (outcome : ReflectionOutcome) : Option ProcessResponse := do
  let confidence ← draftConfidence draft
  let draft2 :=
    if confidence < mkRat 85 100 then call_reflection_engine draft outcome else draft
  let processing_route :=
    if confidence < mkRat 85 100 then "Reflection Engine (Healed)" else "Direct Extraction"
  let amount ← draftAmount draft2
  let merchant ← draftMerchant draft2
  let compliance := check_business_rules amount merchant
  some { fields := draft2,
         compliance_status := compliance.status,
         ui_blocks := compliance.ui_blocks,
         meta := { processed_by := user.user_id,
                   route := processing_route,
                   role := "worker" } }

/-- The `/process` endpoint end to end: the FastAPI dependencies resolve
the caller (`get_current_user`) and enforce `RequireRole("worker")`
before the handler body runs; `none` embeds any rejection. -/
def process_endpoint (api_key : Option String) (identMap : IdentityMap)
    (draft : Draft) (outcome : ReflectionOutcome) :
    Option ProcessResponse := do
  let user ← get_current_user api_key identMap
  if RequireRole "worker" user then process_receipt user draft outcome
  else none

/-- `API_IDENTITY_MAP` from `auth_gateway/auth.py`, parametrized by the
two environment credentials (`ADMIN_API_KEY`, `WORKER_API_KEY`), each
`none` when its variable is unset. -/
def API_IDENTITY_MAP (admin_key worker_key : Option String) : IdentityMap :=
  [ (admin_key,
     { user_id := "u_admin", client_id := "platform_admin",
       roles := ["admin", "finance_approver"], tenant_id := some "TENANT_01" }),
    (worker_key,
     { user_id := "u_bot_01", client_id := "automation_worker",
       roles := ["worker"], tenant_id := some "TENANT_02" }) ]

/-- Comparison definition for claim C4 only, following the
specification's words rather than the source: the year of a
`YYYY-MM-DD` date string is its first four characters read as a number,
and the specification's fallback rule demands a fix exactly when a date
field is present and its year is strictly after the current year
("falls in a year known to be in the future relative to now"). -/
def dateYear (d : String) : Option ℕ :=
  (d.data.take 4).foldl
    (fun acc c => acc.bind
      (fun n => if c.isDigit then some (n * 10 + (c.toNat - 48)) else none))
    (some 0)

/-- Comparison definition for claim C4 only, following the
specification's words: whether the fallback rule, as the specification
states it, requires the payload's date to be rewritten. -/
def spec_demands_date_fix (current_year : ℕ) (payload : Draft) : Bool :=
  match payload.lookup "date" with
  | some (JVal.str d) =>
    match dateYear d with
    | some y => decide (current_year < y)
    | none => false
  | _ => false

/-! ## Helper lemmas -/

/-- A string contains any needle exhibited by a decomposition of its
character data. -/
lemma strContains_of_data (hay needle : String) (s t : List Char)
    (h : hay.data = s ++ needle.data ++ t) : strContains hay needle = true := by
  simp only [strContains, decide_eq_true_eq]
  exact h ▸ List.infix_append s needle.data t

/-! ## Claim C5 — compliance threshold -/

/-- C5: for every amount and merchant, `check_business_rules` returns
`REVIEW_REQUIRED` together with a review artifact — a section block
whose text displays the merchant, the amount and the reason, plus an
actions block with approve and reject buttons — exactly when
`amount >= 75.00` (the boundary is inclusive, so 75.00 itself requires
review), and returns `APPROVED` with no artifact when `amount < 75.00`. -/
theorem check_business_rules_threshold (amount : ℚ) (merchant : String) :
    ∃ txt,
      check_business_rules amount merchant =
        (if 75 ≤ amount then
          { status := "REVIEW_REQUIRED",
            ui_blocks := some [UIBlock.section txt,
              UIBlock.actions [("Approve", "approve"), ("Reject", "reject")]] }
         else { status := "APPROVED", ui_blocks := none }) ∧
      strContains txt merchant = true ∧
      strContains txt (formatAmount amount) = true ∧
      strContains txt "Exceeds auto-approval limit" = true := by
  refine ⟨"🚨 *Compliance Alert*\n*Merchant:* " ++ merchant ++
      "\n*Amount:* $" ++ formatAmount amount ++ "\n*Alert:* " ++
      "Exceeds auto-approval limit", ?_, ?_, ?_, ?_⟩
  · unfold check_business_rules generate_approval_ui
    split <;> rfl
  · exact strContains_of_data _ _ "🚨 *Compliance Alert*\n*Merchant:* ".data
      ("\n*Amount:* $" ++ formatAmount amount ++ "\n*Alert:* " ++
        "Exceeds auto-approval limit").data
      (by simp [String.data_append, List.append_assoc])
  · exact strContains_of_data _ _
      ("🚨 *Compliance Alert*\n*Merchant:* " ++ merchant ++ "\n*Amount:* $").data
      ("\n*Alert:* " ++ "Exceeds auto-approval limit").data
      (by simp [String.data_append, List.append_assoc])
  · exact strContains_of_data _ _
      ("🚨 *Compliance Alert*\n*Merchant:* " ++ merchant ++ "\n*Amount:* $" ++
        formatAmount amount ++ "\n*Alert:* ").data []
      (by simp [String.data_append, List.append_assoc])

/-- C5 witness: the inclusive boundary, evaluated at amount 75.00 and
merchant "X". -/
theorem check_business_rules_threshold_witness :
    ∃ txt,
      check_business_rules 75 "X" =
        (if (75 : ℚ) ≤ 75 then
          { status := "REVIEW_REQUIRED",
            ui_blocks := some [UIBlock.section txt,
              UIBlock.actions [("Approve", "approve"), ("Reject", "reject")]] }
         else { status := "APPROVED", ui_blocks := none }) ∧
      strContains txt "X" = true ∧
      strContains txt (formatAmount 75) = true ∧
      strContains txt "Exceeds auto-approval limit" = true :=
  check_business_rules_threshold 75 "X"

/-! ## Claim C7 — identity resolution -/

/-- The entry scan of `get_current_user` finds nothing when the
presented credential matches no configured (`some`) key of the map. -/
lemma valid_keys_find_none (k : String) (identMap : IdentityMap)
    (hno : ∀ u : UserContext, (some k, u) ∉ identMap) :
    (identMap.filterMap (fun e => e.1.map (fun key => (key, e.2)))).find?
      (fun e => e.1 = k) = none := by
  rw [List.find?_eq_none]
  rintro ⟨key, u⟩ hmem
  rcases List.mem_filterMap.mp hmem with ⟨⟨ok, u2⟩, hin, hmap⟩
  cases ok with
  | none => simp at hmap
  | some key2 =>
    simp only [Option.map_some', Option.some.injEq, Prod.mk.injEq] at hmap
    obtain ⟨rfl, rfl⟩ := hmap
    simp only [decide_eq_true_eq]
    intro hkey
    exact hno u2 (hkey ▸ hin)

/-- An entry found by the scan of `get_current_user` comes from a map
entry whose configured key is `some` of the presented credential. -/
lemma valid_keys_find_some (k : String) (identMap : IdentityMap)
    (e : String × UserContext)
    (h : (identMap.filterMap (fun e => e.1.map (fun key => (key, e.2)))).find?
      (fun e => e.1 = k) = some e) :
    (some k, e.2) ∈ identMap := by
  have hk2 : e.1 = k := by simpa using List.find?_some h
  have hmem := List.mem_of_find?_eq_some h
  rcases List.mem_filterMap.mp hmem with ⟨⟨ok, u2⟩, hin, hmap⟩
  cases ok with
  | none => simp at hmap
  | some key2 =>
    simp only [Option.map_some', Option.some.injEq] at hmap
    rw [← hmap] at hk2
    rw [← hmap]
    simp only at hk2 ⊢
    rw [← hk2]
    exact hin

/-- C7: identity resolution fails when the presented credential is
absent or empty, and when it matches no entry of the identity map; a
successful resolution can only come from an entry whose configured
credential is set (`some`), equal to the presented credential, and
therefore nonempty — so an unset entry never acts as a wildcard and an
empty or unset presented credential always fails. -/
theorem get_current_user_resolution (k : String) (identMap : IdentityMap) :
    get_current_user none identMap = none ∧
    get_current_user (some "") identMap = none ∧
    ((∀ u : UserContext, (some k, u) ∉ identMap) →
      get_current_user (some k) identMap = none) ∧
    (∀ u : UserContext, get_current_user (some k) identMap = some u →
      k ≠ "" ∧ (some k, u) ∈ identMap) := by
  refine ⟨rfl, rfl, ?_, ?_⟩
  · intro hno
    simp only [get_current_user]
    rcases eq_or_ne k "" with hk | hk
    · simp [hk]
    · rw [if_neg hk]
      simp only [valid_keys_find_none k identMap hno, Option.map_none']
  · intro u hu
    simp only [get_current_user] at hu
    rcases eq_or_ne k "" with hk | hk
    · rw [if_pos hk] at hu; cases hu
    · rw [if_neg hk] at hu
      refine ⟨hk, ?_⟩
      cases hfind : (identMap.filterMap
          (fun e => e.1.map (fun key => (key, e.2)))).find?
            (fun e => e.1 = k) with
      | none => simp only [hfind, Option.map_none'] at hu; cases hu
      | some e =>
        simp only [hfind, Option.map_some', Option.some.injEq] at hu
        have := valid_keys_find_some k identMap e hfind
        rw [hu] at this
        exact this

/-- C7 witness: against an identity map whose worker credential is
unset, a stray credential, a missing credential and an empty credential
all fail to resolve. -/
theorem get_current_user_resolution_witness :
    get_current_user none (API_IDENTITY_MAP (some "adm-secret") none) = none ∧
    get_current_user (some "") (API_IDENTITY_MAP (some "adm-secret") none) = none ∧
    get_current_user (some "stray") (API_IDENTITY_MAP (some "adm-secret") none) = none := by
  have h := get_current_user_resolution "stray" (API_IDENTITY_MAP (some "adm-secret") none)
  refine ⟨h.1, h.2.1, h.2.2.1 ?_⟩
  intro u hu
  rcases List.mem_cons.mp hu with h1 | h1
  · have : some "stray" = some "adm-secret" := congrArg Prod.fst h1
    simp only [Option.some.injEq] at this
    exact absurd this (by decide)
  · rcases List.mem_cons.mp h1 with h2 | h2
    · have : (some "stray" : Option String) = none := congrArg Prod.fst h2
      cases this
    · cases h2

/-! ## Claim C8 — role-based authorization -/

/-- C8: for every resolved identity and required role, `RequireRole`
authorizes exactly when the identity holds the admin role or the
required role; in particular an admin identity is authorized for any
required role, and an identity with neither role is rejected. -/
theorem RequireRole_decision (required_role : String) (user : UserContext) :
    RequireRole required_role user = true ↔
      "admin" ∈ user.roles ∨ required_role ∈ user.roles := by
  unfold RequireRole
  rcases h1 : user.roles.contains "admin" with _ | _
  · rcases h2 : user.roles.contains required_role with _ | _
    · simp only [if_neg, Bool.false_eq_true, Bool.not_false, if_pos, ite_self]
      constructor
      · intro h; simp at h
      · rintro (hm | hm)
        · have : user.roles.contains "admin" = true := by simpa using hm
          rw [h1] at this; cases this
        · have : user.roles.contains required_role = true := by simpa using hm
          rw [h2] at this; cases this
    · have hm2 : required_role ∈ user.roles := by simpa using h2
      simp [h1, h2, hm2]
  · have hm1 : "admin" ∈ user.roles := by simpa using h1
    simp [h1, hm1]

/-- C8 witness: the admin identity of the identity map is authorized
for the worker role it does not hold, and the worker identity is not
authorized for the admin-only role. -/
theorem RequireRole_decision_witness :
    RequireRole "worker"
      { user_id := "u_admin", client_id := "platform_admin",
        roles := ["admin", "finance_approver"], tenant_id := some "TENANT_01" } = true ∧
    RequireRole "admin"
      { user_id := "u_bot_01", client_id := "automation_worker",
        roles := ["worker"], tenant_id := some "TENANT_02" } ≠ true := by
  constructor
  · exact (RequireRole_decision "worker" _).mpr (Or.inl (by decide))
  · intro h
    have := (RequireRole_decision "admin" _).mp h
    rcases this with h2 | h2 <;> revert h2 <;> decide

/-! ## Claim C4 — deterministic fallback reflection -/

/-- C4 counterexample: the claim says a payload whose date falls in a
year in the future relative to now must come back rewritten with
`was_modified = true`, but `{date: "2027-01-01"}` — year 2027, strictly
after the current year — is returned unchanged with
`was_modified = false`, because the code's rule is a literal substring
test for `"2026"`, not a comparison of the year against now. -/
theorem reflect_fallback_ignores_other_future_years :
    spec_demands_date_fix 2026 [("date", JVal.str "2027-01-01")] = true ∧
    reflect_fallback [("date", JVal.str "2027-01-01")] =
      some { refined_data := [("date", JVal.str "2027-01-01")],
             was_modified := false,
             notes := "AI Unavailable (Env Var Missing). Checks passed." } := by
  constructor
  · decide
  · rfl

/-- C4 (amended): in deterministic fallback mode, `reflect` rewrites
the date to the fixed value `"2025-12-06"` with `was_modified = true`
exactly when the payload has a date string containing the substring
`"2026"`; every other payload whose date field, if present, is a string
is returned unchanged with `was_modified = false`.  In particular
`{date: "2026-03-01"}` is rewritten and `{date: "2024-01-01"}` is not,
but a date in a future year other than 2026, such as `"2027-01-01"`, is
also returned unchanged. -/
theorem reflect_fallback_substring_rule (payload : Draft) :
    (payload.lookup "date" = none →
      reflect_fallback payload =
        some { refined_data := payload, was_modified := false,
               notes := "AI Unavailable (Env Var Missing). Checks passed." }) ∧
    (∀ d, payload.lookup "date" = some (JVal.str d) →
      reflect_fallback payload =
        some (if strContains d "2026" then
          { refined_data := payload.setField "date" (JVal.str "2025-12-06"),
            was_modified := true,
            notes := "Mock AI: Fixed future date error." }
        else
          { refined_data := payload, was_modified := false,
            notes := "AI Unavailable (Env Var Missing). Checks passed." })) := by
  constructor
  · intro h
    simp only [reflect_fallback, h]
  · intro d h
    simp only [reflect_fallback, h]
    split <;> rfl

/-- C4 witness: the claim's own concrete examples, evaluated — the 2026
date is rewritten to the fixed fallback date, the 2024 date is not. -/
theorem reflect_fallback_substring_rule_witness :
    reflect_fallback [("date", JVal.str "2026-03-01")] =
      some { refined_data := [("date", JVal.str "2025-12-06")],
             was_modified := true,
             notes := "Mock AI: Fixed future date error." } ∧
    reflect_fallback [("date", JVal.str "2024-01-01")] =
      some { refined_data := [("date", JVal.str "2024-01-01")],
             was_modified := false,
             notes := "AI Unavailable (Env Var Missing). Checks passed." } := by
  constructor
  · have h := (reflect_fallback_substring_rule
      [("date", JVal.str "2026-03-01")]).2 "2026-03-01" rfl
    rw [h]; decide
  · have h := (reflect_fallback_substring_rule
      [("date", JVal.str "2024-01-01")]).2 "2024-01-01" rfl
    rw [h]; decide

/-! ## Claim C1 — merge versus wholesale replacement -/

/-- C1 counterexample: after a successful reflection call with
`was_modified = true`, a field present in the original draft but absent
from `refined_data` does NOT survive — `call_reflection_engine` returns
`refined_data` itself, not a field-wise merge into the draft. -/
theorem call_reflection_engine_drops_unrefined_fields :
    Draft.lookup [("merchant", JVal.str "Coffee"), ("category", JVal.str "food")]
      "category" = some (JVal.str "food") ∧
    Draft.lookup
      (call_reflection_engine
        [("merchant", JVal.str "Coffee"), ("category", JVal.str "food")]
        (ReflectionOutcome.success
          { refined_data := [("merchant", JVal.str "Cafe")],
            was_modified := true, notes := "capitalization fixed" }))
      "category" = none := by
  decide

/-- C1 (amended): when the reflection call succeeds with
`was_modified = true`, the draft used from then on is `refined_data`
wholesale — every field of the response is taken as-is and fields of
the original draft absent from `refined_data` are lost. -/
theorem call_reflection_engine_replaces_draft_wholesale (draft : Draft)
    (r : ReflectionResponse) (h : r.was_modified = true) :
    call_reflection_engine draft (ReflectionOutcome.success r) = r.refined_data := by
  simp only [call_reflection_engine, h, if_true]

/-- C1 witness: the wholesale replacement evaluated on a concrete draft
and reflection response. -/
theorem call_reflection_engine_replaces_draft_wholesale_witness :
    ({ refined_data := [("merchant", JVal.str "Cafe")],
       was_modified := true, notes := "n" } : ReflectionResponse).was_modified = true ∧
    call_reflection_engine
      [("merchant", JVal.str "Coffee"), ("amount", JVal.num 12)]
      (ReflectionOutcome.success
        { refined_data := [("merchant", JVal.str "Cafe")],
          was_modified := true, notes := "n" }) =
      [("merchant", JVal.str "Cafe")] :=
  ⟨rfl, call_reflection_engine_replaces_draft_wholesale _ _ rfl⟩

/-! ## Orchestrator characterization -/

/-- Full characterization of a successful `process_receipt` run: the
response exists exactly when the confidence, amount and merchant fields
are readable, and then every component of it is determined by the
routing branch.  Shared by the orchestration claims below. -/
lemma process_receipt_characterization (user : UserContext) (draft : Draft)
    (outcome : ReflectionOutcome) (resp : ProcessResponse) :
    process_receipt user draft outcome = some resp ↔
      ∃ c a m, draftConfidence draft = some c ∧
        draftAmount (if c < mkRat 85 100 then call_reflection_engine draft outcome
                     else draft) = some a ∧
        draftMerchant (if c < mkRat 85 100 then call_reflection_engine draft outcome
                       else draft) = some m ∧
        resp = { fields := if c < mkRat 85 100 then call_reflection_engine draft outcome
                           else draft,
                 compliance_status := (check_business_rules a m).status,
                 ui_blocks := (check_business_rules a m).ui_blocks,
                 meta := { processed_by := user.user_id,
                           route := if c < mkRat 85 100 then "Reflection Engine (Healed)"
                                    else "Direct Extraction",
                           role := "worker" } } := by
  unfold process_receipt
  cases hc : draftConfidence draft with
  | none => simp
  | some c =>
    simp only [Option.bind_eq_bind, Option.some_bind, Option.some.injEq]
    cases ha : draftAmount (if c < mkRat 85 100 then call_reflection_engine draft outcome
        else draft) with
    | none => simp [ha]
    | some a =>
      simp only [Option.some_bind, Option.some.injEq]
      cases hm : draftMerchant (if c < mkRat 85 100 then call_reflection_engine draft outcome
          else draft) with
      | none => simp [hm]
      | some m =>
        simp only [Option.some_bind, Option.some.injEq]
        constructor
        · intro h
          exact ⟨c, a, m, rfl, ha, hm, h.symm⟩
        · rintro ⟨c2, a2, m2, hc2, ha2, hm2, hr⟩
          obtain rfl : c = c2 := by simpa using hc2
          rw [ha] at ha2
          obtain rfl : a = a2 := by simpa using ha2
          rw [hm] at hm2
          obtain rfl : m = m2 := by simpa using hm2
          exact hr.symm

/-! ## Claim C2 — fail-open reflection -/

/-- C2: when the reflection call fails in any way, the overall request
does not fail: a response is produced, its draft fields are exactly the
original draft, and its compliance decision is `check_business_rules`
evaluated on that original draft's amount and merchant. -/
theorem process_receipt_fail_open (user : UserContext) (draft : Draft)
    (c a : ℚ) (m : String)
    (hc : draftConfidence draft = some c)
    (ha : draftAmount draft = some a)
    (hm : draftMerchant draft = some m) :
    ∃ resp, process_receipt user draft ReflectionOutcome.failure = some resp ∧
      resp.fields = draft ∧
      resp.compliance_status = (check_business_rules a m).status ∧
      resp.ui_blocks = (check_business_rules a m).ui_blocks := by
  have hid : (if c < mkRat 85 100 then
      call_reflection_engine draft ReflectionOutcome.failure else draft) = draft := by
    split <;> rfl
  refine ⟨{ fields := if c < mkRat 85 100 then
              call_reflection_engine draft ReflectionOutcome.failure else draft,
            compliance_status := (check_business_rules a m).status,
            ui_blocks := (check_business_rules a m).ui_blocks,
            meta := { processed_by := user.user_id,
                      route := if c < mkRat 85 100 then "Reflection Engine (Healed)"
                               else "Direct Extraction",
                      role := "worker" } }, ?_, hid, rfl, rfl⟩
  rw [process_receipt_characterization]
  exact ⟨c, a, m, hc, by rw [hid]; exact ha, by rw [hid]; exact hm, rfl⟩

/-- C2 witness: a failed reflection call on a concrete low-confidence
draft still yields a response whose compliance decision is computed on
the original draft. -/
theorem process_receipt_fail_open_witness :
    ∃ resp, process_receipt
        { user_id := "u_bot_01", client_id := "automation_worker",
          roles := ["worker"], tenant_id := some "TENANT_02" }
        [("merchant", JVal.str "Shop"), ("amount", JVal.num 90),
         ("confidence", JVal.num (mkRat 1 2))]
        ReflectionOutcome.failure = some resp ∧
      resp.fields = [("merchant", JVal.str "Shop"), ("amount", JVal.num 90),
        ("confidence", JVal.num (mkRat 1 2))] ∧
      resp.compliance_status = (check_business_rules 90 "Shop").status ∧
      resp.ui_blocks = (check_business_rules 90 "Shop").ui_blocks :=
  process_receipt_fail_open _ _ (mkRat 1 2) 90 "Shop" rfl rfl rfl

/-! ## Claim C3 — route marker on reflection failure -/

/-- C3 counterexample: a request whose reflection call fails (the draft
comes back unchanged, so no healing occurred) nevertheless reports the
route `"Reflection Engine (Healed)"` in its meta field — the marker is
set as soon as the low-confidence branch is taken, before the call's
outcome is known. -/
theorem route_marker_healed_despite_failure :
    (process_receipt
        { user_id := "u_bot_01", client_id := "automation_worker",
          roles := ["worker"], tenant_id := some "TENANT_02" }
        [("merchant", JVal.str "Shop"), ("amount", JVal.num 10),
         ("confidence", JVal.num (mkRat 1 2))]
        ReflectionOutcome.failure).map
      (fun r => (r.meta.route, r.fields)) =
    some ("Reflection Engine (Healed)",
      [("merchant", JVal.str "Shop"), ("amount", JVal.num 10),
       ("confidence", JVal.num (mkRat 1 2))]) := by
  rfl

/-- C3 (amended): the route marker reports the routing decision only —
it is `"Reflection Engine (Healed)"` exactly when the confidence was
below 0.85, regardless of the reflection call's outcome, so a failed
reflection on a low-confidence draft is still reported as healed. -/
theorem route_marker_follows_confidence_only (user : UserContext)
    (draft : Draft) (outcome : ReflectionOutcome) (resp : ProcessResponse)
    (c : ℚ) (hc : draftConfidence draft = some c)
    (h : process_receipt user draft outcome = some resp) :
    resp.meta.route =
      if c < mkRat 85 100 then "Reflection Engine (Healed)" else "Direct Extraction" := by
  obtain ⟨c2, a, m, hc2, ha, hm, hr⟩ :=
    (process_receipt_characterization user draft outcome resp).mp h
  rw [hc] at hc2
  obtain rfl : c = c2 := by simpa using hc2
  rw [hr]

/-- C3 witness: the amended rule evaluated on a concrete failed
reflection call with confidence defaulting below the threshold. -/
theorem route_marker_follows_confidence_only_witness :
    ({ fields := [("amount", JVal.num 10)], compliance_status := "APPROVED",
       ui_blocks := none,
       meta := { processed_by := "u_bot_01",
                 route := "Reflection Engine (Healed)", role := "worker" } } :
      ProcessResponse).meta.route =
      if (mkRat 1 2) < mkRat 85 100 then "Reflection Engine (Healed)"
      else "Direct Extraction" :=
  route_marker_follows_confidence_only
    { user_id := "u_bot_01", client_id := "automation_worker",
      roles := ["worker"], tenant_id := some "TENANT_02" }
    [("amount", JVal.num 10)] ReflectionOutcome.failure _ (mkRat 1 2) rfl rfl

/-! ## Claim C6 — confidence routing threshold -/

/-- C6: the draft goes through the reflection engine exactly when its
confidence is strictly below 0.85 — the route marker says so, the
fields consumed downstream are then the reflection call's result, and
at or above 0.85 the draft is used untouched. -/
theorem process_receipt_routing_threshold (user : UserContext)
    (draft : Draft) (outcome : ReflectionOutcome) (resp : ProcessResponse)
    (c : ℚ) (hc : draftConfidence draft = some c)
    (h : process_receipt user draft outcome = some resp) :
    (resp.meta.route = "Reflection Engine (Healed)" ↔ c < mkRat 85 100) ∧
    (c < mkRat 85 100 → resp.fields = call_reflection_engine draft outcome) ∧
    (mkRat 85 100 ≤ c → resp.fields = draft) := by
  obtain ⟨c2, a, m, hc2, ha, hm, hr⟩ :=
    (process_receipt_characterization user draft outcome resp).mp h
  rw [hc] at hc2
  obtain rfl : c = c2 := by simpa using hc2
  subst hr
  by_cases hlt : c < mkRat 85 100
  · refine ⟨?_, fun _ => ?_, fun hge => absurd hlt (not_lt.mpr hge)⟩
    · show (if c < mkRat 85 100 then "Reflection Engine (Healed)"
        else "Direct Extraction") = "Reflection Engine (Healed)" ↔ c < mkRat 85 100
      rw [if_pos hlt]
      exact iff_of_true rfl hlt
    · show (if c < mkRat 85 100 then call_reflection_engine draft outcome else draft) =
        call_reflection_engine draft outcome
      rw [if_pos hlt]
  · refine ⟨?_, fun h2 => absurd h2 hlt, fun _ => ?_⟩
    · show (if c < mkRat 85 100 then "Reflection Engine (Healed)"
        else "Direct Extraction") = "Reflection Engine (Healed)" ↔ c < mkRat 85 100
      rw [if_neg hlt]
      exact iff_of_false (by decide) hlt
    · show (if c < mkRat 85 100 then call_reflection_engine draft outcome else draft) =
        draft
      rw [if_neg hlt]

/-- C6 witness: both sides of the boundary — confidence 0.84 routes
through reflection, confidence 0.85 takes the direct path. -/
theorem process_receipt_routing_threshold_witness :
    ((({ fields := [("confidence", JVal.num (mkRat 84 100))],
         compliance_status := "APPROVED", ui_blocks := none,
         meta := { processed_by := "u_bot_01",
                   route := "Reflection Engine (Healed)", role := "worker" } } :
        ProcessResponse).meta.route = "Reflection Engine (Healed)" ↔
          (mkRat 84 100) < mkRat 85 100) ∧
      ((mkRat 84 100) < mkRat 85 100 →
        ({ fields := [("confidence", JVal.num (mkRat 84 100))],
           compliance_status := "APPROVED", ui_blocks := none,
           meta := { processed_by := "u_bot_01",
                     route := "Reflection Engine (Healed)", role := "worker" } } :
          ProcessResponse).fields =
          call_reflection_engine [("confidence", JVal.num (mkRat 84 100))]
            ReflectionOutcome.failure) ∧
      ((mkRat 85 100) ≤ mkRat 84 100 →
        ({ fields := [("confidence", JVal.num (mkRat 84 100))],
           compliance_status := "APPROVED", ui_blocks := none,
           meta := { processed_by := "u_bot_01",
                     route := "Reflection Engine (Healed)", role := "worker" } } :
          ProcessResponse).fields = [("confidence", JVal.num (mkRat 84 100))])) ∧
    ((({ fields := [("confidence", JVal.num (mkRat 85 100))],
         compliance_status := "APPROVED", ui_blocks := none,
         meta := { processed_by := "u_bot_01",
                   route := "Direct Extraction", role := "worker" } } :
        ProcessResponse).meta.route = "Reflection Engine (Healed)" ↔
          (mkRat 85 100) < mkRat 85 100) ∧
      ((mkRat 85 100) < mkRat 85 100 →
        ({ fields := [("confidence", JVal.num (mkRat 85 100))],
           compliance_status := "APPROVED", ui_blocks := none,
           meta := { processed_by := "u_bot_01",
                     route := "Direct Extraction", role := "worker" } } :
          ProcessResponse).fields =
          call_reflection_engine [("confidence", JVal.num (mkRat 85 100))]
            ReflectionOutcome.failure) ∧
      ((mkRat 85 100) ≤ mkRat 85 100 →
        ({ fields := [("confidence", JVal.num (mkRat 85 100))],
           compliance_status := "APPROVED", ui_blocks := none,
           meta := { processed_by := "u_bot_01",
                     route := "Direct Extraction", role := "worker" } } :
          ProcessResponse).fields = [("confidence", JVal.num (mkRat 85 100))])) :=
  ⟨process_receipt_routing_threshold
    { user_id := "u_bot_01", client_id := "automation_worker",
      roles := ["worker"], tenant_id := some "TENANT_02" }
    [("confidence", JVal.num (mkRat 84 100))] ReflectionOutcome.failure _ (mkRat 84 100)
    rfl rfl,
   process_receipt_routing_threshold
    { user_id := "u_bot_01", client_id := "automation_worker",
      roles := ["worker"], tenant_id := some "TENANT_02" }
    [("confidence", JVal.num (mkRat 85 100))] ReflectionOutcome.failure _ (mkRat 85 100)
    rfl rfl⟩

/-! ## Claim C9 — default confidence -/

/-- C9: a draft with no confidence field is treated as confidence 0.5,
which is below the 0.85 threshold, so it is always routed through the
reflection engine. -/
theorem process_receipt_missing_confidence (user : UserContext)
    (draft : Draft) (outcome : ReflectionOutcome) (resp : ProcessResponse)
    (hno : draft.lookup "confidence" = none)
    (h : process_receipt user draft outcome = some resp) :
    draftConfidence draft = some (mkRat 1 2) ∧
    resp.meta.route = "Reflection Engine (Healed)" ∧
    resp.fields = call_reflection_engine draft outcome := by
  have hc : draftConfidence draft = some (mkRat 1 2) := by
    simp only [draftConfidence, hno]
  obtain ⟨c2, a, m, hc2, ha, hm, hr⟩ :=
    (process_receipt_characterization user draft outcome resp).mp h
  rw [hc] at hc2
  obtain rfl : (mkRat 1 2) = c2 := by simpa using hc2
  have hlt : (mkRat 1 2) < mkRat 85 100 := by decide
  subst hr
  refine ⟨hc, ?_, ?_⟩
  · show (if (mkRat 1 2) < mkRat 85 100 then "Reflection Engine (Healed)"
      else "Direct Extraction") = "Reflection Engine (Healed)"
    rw [if_pos hlt]
  · show (if (mkRat 1 2) < mkRat 85 100 then call_reflection_engine draft outcome
      else draft) = call_reflection_engine draft outcome
    rw [if_pos hlt]

/-- C9 witness: a concrete draft with no confidence field takes the
reflection route. -/
theorem process_receipt_missing_confidence_witness :
    draftConfidence [("merchant", JVal.str "Cafe"), ("amount", JVal.num 10)] =
      some (mkRat 1 2) ∧
    ({ fields := [("merchant", JVal.str "Cafe"), ("amount", JVal.num 10)],
       compliance_status := "APPROVED", ui_blocks := none,
       meta := { processed_by := "u_bot_01",
                 route := "Reflection Engine (Healed)", role := "worker" } } :
      ProcessResponse).meta.route = "Reflection Engine (Healed)" ∧
    ({ fields := [("merchant", JVal.str "Cafe"), ("amount", JVal.num 10)],
       compliance_status := "APPROVED", ui_blocks := none,
       meta := { processed_by := "u_bot_01",
                 route := "Reflection Engine (Healed)", role := "worker" } } :
      ProcessResponse).fields =
      call_reflection_engine [("merchant", JVal.str "Cafe"), ("amount", JVal.num 10)]
        ReflectionOutcome.failure :=
  process_receipt_missing_confidence
    { user_id := "u_bot_01", client_id := "automation_worker",
      roles := ["worker"], tenant_id := some "TENANT_02" }
    [("merchant", JVal.str "Cafe"), ("amount", JVal.num 10)]
    ReflectionOutcome.failure _ rfl rfl

/-! ## Claim C10 — response metadata -/

/-- C10: every successful response of the process endpoint reports the
literal role `"worker"` in its meta field, whatever roles the resolved
caller actually holds, while `processed_by` is the caller's user id. -/
theorem process_endpoint_meta_role_literal (api_key : Option String)
    (identMap : IdentityMap) (draft : Draft) (outcome : ReflectionOutcome)
    (user : UserContext) (resp : ProcessResponse)
    (hu : get_current_user api_key identMap = some user)
    (h : process_endpoint api_key identMap draft outcome = some resp) :
    resp.meta.role = "worker" ∧ resp.meta.processed_by = user.user_id := by
  unfold process_endpoint at h
  rw [hu] at h
  simp only [Option.bind_eq_bind, Option.some_bind] at h
  by_cases hr : RequireRole "worker" user = true
  · rw [if_pos hr] at h
    obtain ⟨c, a, m, hc, ha, hm, hresp⟩ :=
      (process_receipt_characterization user draft outcome resp).mp h
    subst hresp
    exact ⟨rfl, rfl⟩
  · rw [if_neg hr] at h
    cases h

/-- C10 witness: an admin caller (who does not hold the worker role) is
still reported as role `"worker"`, with `processed_by` set to the admin
user id. -/
theorem process_endpoint_meta_role_literal_witness :
    ({ fields := [("amount", JVal.num 10)], compliance_status := "APPROVED",
       ui_blocks := none,
       meta := { processed_by := "u_admin",
                 route := "Reflection Engine (Healed)", role := "worker" } } :
      ProcessResponse).meta.role = "worker" ∧
    ({ fields := [("amount", JVal.num 10)], compliance_status := "APPROVED",
       ui_blocks := none,
       meta := { processed_by := "u_admin",
                 route := "Reflection Engine (Healed)", role := "worker" } } :
      ProcessResponse).meta.processed_by =
      ({ user_id := "u_admin", client_id := "platform_admin",
         roles := ["admin", "finance_approver"],
         tenant_id := some "TENANT_01" } : UserContext).user_id :=
  process_endpoint_meta_role_literal (some "adm-secret")
    (API_IDENTITY_MAP (some "adm-secret") (some "wk-secret"))
    [("amount", JVal.num 10)] ReflectionOutcome.failure _ _ rfl rfl

end PlatformLab
